import Mathlib

/-!
# Verification of the knowledge-graph animation engine (bloomed landing page)

Shallow embedding of the scroll-driven knowledge-graph animation code:

* `src/data/graphData.ts` — the static graph model (nodes, edges, known set,
  the broken edge and its precomputed length);
* `src/animations/graphAnimations.ts` (and its near-duplicate variants in the
  repository) — the per-phase timeline builders (`toAmbient`, `toDiagnostic`,
  `toRepair`/`toLearning`, `toSolidify`) together with the module-level store
  of repeating tweens and `killAll`;
* `src/components/KnowledgeGraph.tsx` — the phase controller effect and the
  edge ingestion into the force simulation;
* the procedural bloom generator (`HeroBloom`).

Modelling conventions:

* Time offsets, durations and generic JS numbers are rationals (`ℚ`); every
  numeric literal in the relevant source is a short decimal, and the
  properties under study concern exact scheduling parameters.
* The static node coordinates are integers in the source and are embedded as
  `ℤ`.  `Math.hypot` distances are compared through squared distances
  (`sqrt` is strictly monotone on nonnegatives, so all order comparisons
  agree); the one rounded integer length in the data module is computed by an
  exact rounded integer square root.
-/

namespace Bloomed

/-! ## Graph model — `src/data/graphData.ts` -/

structure GraphNode where
  id : String
  category : String
  x : ℤ
  y : ℤ
  deriving DecidableEq, Repr

structure GraphEdge where
  id : String
  source : String
  target : String
  deriving DecidableEq, Repr

/-- `GRAPH_NODES` entries, named individually so theorems can refer to them. -/
def nAnatomy : GraphNode := ⟨"anatomy", "foundational", 110, 400⟩

def nHistology : GraphNode := ⟨"histology", "foundational", 90, 285⟩

def nPhysiology : GraphNode := ⟨"physiology", "foundational", 200, 290⟩

def nBiochemistry : GraphNode := ⟨"biochemistry", "foundational", 285, 385⟩

def nPathology : GraphNode := ⟨"pathology", "pathological", 380, 220⟩

def nPharmacology : GraphNode := ⟨"pharmacology", "pathological", 420, 370⟩

def nMicrobiology : GraphNode := ⟨"microbiology", "pathological", 300, 450⟩

def nImmunology : GraphNode := ⟨"immunology", "pathological", 490, 445⟩

def nClinicalReasoning : GraphNode := ⟨"clinicalReasoning", "clinical", 540, 185⟩

def nDiagnosis : GraphNode := ⟨"diagnosis", "clinical", 590, 310⟩

def nTreatmentPlanning : GraphNode := ⟨"treatmentPlanning", "clinical", 555, 430⟩

def nInternalMedicine : GraphNode := ⟨"internalMedicine", "specialty", 660, 180⟩

def nSurgery : GraphNode := ⟨"surgery", "specialty", 670, 315⟩

/-- `GRAPH_NODES` from `graphData.ts`, in declaration order. -/
def GRAPH_NODES : List GraphNode :=
  [nAnatomy, nHistology, nPhysiology, nBiochemistry,
   nPathology, nPharmacology, nMicrobiology, nImmunology,
   nClinicalReasoning, nDiagnosis, nTreatmentPlanning,
   nInternalMedicine, nSurgery]

/-- `GRAPH_EDGES` from `graphData.ts`, in declaration order. -/
def GRAPH_EDGES : List GraphEdge :=
  [⟨"anatomy-physiology", "anatomy", "physiology"⟩,
   ⟨"anatomy-histology", "anatomy", "histology"⟩,
   ⟨"physiology-biochemistry", "physiology", "biochemistry"⟩,
   ⟨"physiology-pathology", "physiology", "pathology"⟩,
   ⟨"biochemistry-pharmacology", "biochemistry", "pharmacology"⟩,
   ⟨"pathology-microbiology", "pathology", "microbiology"⟩,
   ⟨"microbiology-immunology", "microbiology", "immunology"⟩,
   ⟨"pharmacology-treatmentPlanning", "pharmacology", "treatmentPlanning"⟩,
   ⟨"pathology-clinicalReasoning", "pathology", "clinicalReasoning"⟩,
   ⟨"clinicalReasoning-diagnosis", "clinicalReasoning", "diagnosis"⟩,
   ⟨"clinicalReasoning-internalMedicine", "clinicalReasoning", "internalMedicine"⟩,
   ⟨"diagnosis-treatmentPlanning", "diagnosis", "treatmentPlanning"⟩,
   ⟨"diagnosis-surgery", "diagnosis", "surgery"⟩]

/-- `KNOWN_NODE_IDS` from `graphData.ts` (a JS `Set`, modelled as a list with
membership via `contains`). -/
def KNOWN_NODE_IDS : List String :=
  ["anatomy", "physiology", "pharmacology", "diagnosis", "immunology"]

def GAP_SOURCE_ID : String := "pathology"

def GAP_TARGET_ID : String := "clinicalReasoning"

def BROKEN_EDGE_ID : String := "pathology-clinicalReasoning"

/-- Round-to-nearest integer square root: `round (sqrt m)` for natural `m`.
`Nat.sqrt m` is the floor; the result rounds up exactly when the fractional
part is at least one half, i.e. when `(2 * sqrt m + 1)^2 ≤ 4 * m`. -/
def roundSqrt (m : ℕ) : ℕ :=
  let r := Nat.sqrt m
  if (2 * r + 1) ^ 2 ≤ 4 * m then r + 1 else r

/-- Lookup in `GRAPH_NODES` by id — mirrors `GRAPH_NODES.find(n => n.id === nid)`. -/
def findNode (nid : String) : Option GraphNode :=
  GRAPH_NODES.find? (fun n => n.id == nid)

/-- Fallback node used to model the non-null assertion `!` in the source
(the lookups it guards are proved to succeed where used). -/
def dummyNode : GraphNode := ⟨"", "", 0, 0⟩

/-- `BROKEN_EDGE_LENGTH` from `graphData.ts`:
`Math.round(Math.sqrt((tgt.x - src.x)^2 + (tgt.y - src.y)^2))` for the gap
source and target nodes.  The squared distance `160^2 + 35^2 = 26825` is an
exact integer, so the rounded square root is exact. -/
def BROKEN_EDGE_LENGTH : ℚ :=
  (roundSqrt (((nClinicalReasoning.x - nPathology.x) ^ 2
    + (nClinicalReasoning.y - nPathology.y) ^ 2).toNat) : ℕ)

theorem sqrt_26825 : Nat.sqrt 26825 = 163 :=
  (Nat.eq_sqrt.mpr (by norm_num)).symm

theorem BROKEN_EDGE_LENGTH_eq : BROKEN_EDGE_LENGTH = 164 := by
  have h : (((nClinicalReasoning.x - nPathology.x) ^ 2
      + (nClinicalReasoning.y - nPathology.y) ^ 2).toNat) = 26825 := by decide
  rw [BROKEN_EDGE_LENGTH, h, roundSqrt]
  rw [sqrt_26825]
  norm_num

/-! ## Edge classification — `classifyEdge` in `graphData.ts` -/

inductive EdgeClass where
  | known
  | learning
  deriving DecidableEq, Repr

/-- `classifyEdge` from `graphData.ts`:
both endpoints in `KNOWN_NODE_IDS` gives `known`, otherwise `learning`. -/
def classifyEdge (e : GraphEdge) : EdgeClass :=
  let srcKnown := KNOWN_NODE_IDS.contains e.source
  let tgtKnown := KNOWN_NODE_IDS.contains e.target
  if srcKnown && tgtKnown then .known else .learning

/-- Claim C8: edge classification is a pure function of the endpoint role
flags.  For every edge (with arbitrary identity strings), the classification
is `known` exactly when both endpoints belong to the known node set, and it is
`learning` otherwise; being a function of the edge value alone, the result of
two calls with unchanged membership is definitionally the same. -/
theorem classifyEdge_spec :
    ∀ e : GraphEdge,
      (classifyEdge e = .known ↔
        (KNOWN_NODE_IDS.contains e.source ∧ KNOWN_NODE_IDS.contains e.target))
      ∧ (classifyEdge e = .learning ↔
        ¬(KNOWN_NODE_IDS.contains e.source ∧ KNOWN_NODE_IDS.contains e.target)) := by
  intro e
  unfold classifyEdge
  by_cases hs : KNOWN_NODE_IDS.contains e.source = true
    <;> by_cases ht : KNOWN_NODE_IDS.contains e.target = true
    <;> simp [hs, ht]

/-! ## Startup edge ingestion — `KnowledgeGraph.tsx` (mount effect)

The mount effect maps `GRAPH_EDGES` into simulation-edge records and hands
them to the external force layout.  No code in the repository checks that the
named endpoints exist in the node set. -/

structure SimEdge where
  edgeId : String
  source : String
  target : String
  deriving DecidableEq, Repr

/-- `KnowledgeGraph.tsx`: `GRAPH_EDGES.map(e => ({edgeId: e.id, source:
e.source, target: e.target}))` — the edge ingestion performed at startup,
a total map with no referential-integrity check of any kind. -/
def mkSimEdges (edges : List GraphEdge) : List SimEdge :=
  edges.map (fun e => { edgeId := e.id, source := e.source, target := e.target })

/-- Referential integrity of an edge set against a node set: every edge names
existing source and target node identities.  This predicate is stated by the
spec; the repository contains no code computing it. -/
def edgeRefsOk (nodes : List GraphNode) (edges : List GraphEdge) : Bool :=
  edges.all (fun e =>
    (nodes.map (fun n => n.id)).contains e.source
      && (nodes.map (fun n => n.id)).contains e.target)

/-- An edge whose target names no node — a hypothetical authoring error used
to probe the startup path. -/
def ghostEdge : GraphEdge := ⟨"pathology-ghost", "pathology", "ghost"⟩

/-- Claim C10, counterexample: the startup path performs no referential
integrity validation.  `ghostEdge` violates integrity against `GRAPH_NODES`,
yet the ingestion of `KnowledgeGraph.tsx` maps it into a simulation edge
(it neither fails nor drops it — `mkSimEdges` is an infallible map, not a
validating function returning an error), and `classifyEdge` silently
classifies it as `learning`.  So no eager fatal validation exists in the
repository; a violation would only surface inside the external `d3-force`
library, outside this codebase. -/
theorem startup_no_integrity_validation :
    edgeRefsOk GRAPH_NODES [ghostEdge] = false
      ∧ mkSimEdges [ghostEdge] = [⟨"pathology-ghost", "pathology", "ghost"⟩]
      ∧ classifyEdge ghostEdge = .learning := by
  refine ⟨by decide, by decide, by decide⟩

/-- Claim C10, amended: the statically authored edge set satisfies referential
integrity (so no violation can actually arise at startup), and the startup
ingestion is a total map that never drops an edge — but it validates nothing:
it produces exactly one simulation edge per input edge for every input,
violating or not. -/
theorem graph_edges_referential_integrity :
    edgeRefsOk GRAPH_NODES GRAPH_EDGES = true
      ∧ ∀ edges : List GraphEdge, (mkSimEdges edges).length = edges.length := by
  constructor
  · decide
  · intro edges
    simp [mkSimEdges]

end Bloomed

namespace Bloomed

/-! ## Timeline instruction model — the GSAP calls issued by the builders

A timeline is a list of instructions; each `tl.to` / `tl.set` / `tl.call` in
the source becomes one `Instr` carrying its target selector, the mutated
attributes, the start offset (the position parameter of the GSAP call), the
duration and the easing name.  Instantaneous sets have duration `0` and empty
easing; `call` entries (which spawn the repeating loops) carry only an offset. -/

inductive AttrVal where
  | num (q : ℚ)
  | str (s : String)
  deriving DecidableEq, Repr

inductive InstrKind where
  | tset
  | tween
  | call
  deriving DecidableEq, Repr

structure Instr where
  kind : InstrKind
  target : String
  attrs : List (String × AttrVal)
  start : ℚ
  dur : ℚ
  ease : String
  deriving DecidableEq, Repr

/-! ## Repair choreography — `toRepair` in `graphAnimations.ts`

Shared constants of the module (identical in every variant of the file). -/

def REPAIR_EASE : String := "power2.inOut"

def REPAIR_DURATION : ℚ := 1.5

/-- Local constant `DRAW_START` of `toRepair`. -/
def DRAW_START : ℚ := 0.35

/-- Local constant `ARRIVAL_TIME = DRAW_START + REPAIR_DURATION` of
`toRepair` — computed once and reused for every arrival-triggered effect. -/
def ARRIVAL_TIME : ℚ := DRAW_START + REPAIR_DURATION

/-- `const src = GRAPH_NODES.find(n => n.id === GAP_SOURCE_ID)!` in the
variant of `graphAnimations.ts` at `src/src/animations/` (static seed read). -/
def repairSrcNode : GraphNode := (findNode GAP_SOURCE_ID).getD dummyNode

/-- `const tgt = GRAPH_NODES.find(n => n.id === GAP_TARGET_ID)!` likewise. -/
def repairTgtNode : GraphNode := (findNode GAP_TARGET_ID).getD dummyNode

/-- Background restore of `toRepair`, step 1: every non-broken edge fades in. -/
def repairBgEdgeInstrs : List Instr :=
  (GRAPH_EDGES.filter (fun e => e.id ≠ BROKEN_EDGE_ID)).map (fun e =>
    { kind := .tween, target := "#edge-" ++ e.id,
      attrs := [("stroke", .str "rgba(148, 163, 184, 0.16)")],
      start := 0, dur := 0.45, ease := "" })

/-- Background restore of `toRepair`, step 1: every non-gap node at 0.6 opacity. -/
def repairBgNodeInstrs : List Instr :=
  (GRAPH_NODES.filter (fun n => n.id ≠ GAP_SOURCE_ID ∧ n.id ≠ GAP_TARGET_ID)).map (fun n =>
    { kind := .tween, target := "#node-" ++ n.id,
      attrs := [("opacity", .num 0.6)],
      start := 0, dur := 0.45, ease := "" })

def repairSrcDotCyan : Instr :=
  { kind := .tween, target := "#node-" ++ GAP_SOURCE_ID ++ "-dot",
    attrs := [("fill", .str "#06b6d4"), ("r", .num 8)],
    start := 0.05, dur := 0.35, ease := "" }

def repairSrcRingCyan : Instr :=
  { kind := .tween, target := "#node-" ++ GAP_SOURCE_ID ++ "-ring",
    attrs := [("r", .num 14), ("stroke", .str "#06b6d4"), ("opacity", .num 0.3)],
    start := 0.05, dur := 0.35, ease := "" }

def repairLaunchBurst : Instr :=
  { kind := .tween, target := "#node-" ++ GAP_SOURCE_ID ++ "-ring",
    attrs := [("r", .num 30), ("opacity", .num 0)],
    start := DRAW_START - 0.05, dur := 0.5, ease := "power2.out" }

def repairSrcDotPop : Instr :=
  { kind := .tween, target := "#node-" ++ GAP_SOURCE_ID ++ "-dot",
    attrs := [("r", .num 11)],
    start := DRAW_START, dur := 0.12, ease := "power2.out" }

def repairSrcDotRelax : Instr :=
  { kind := .tween, target := "#node-" ++ GAP_SOURCE_ID ++ "-dot",
    attrs := [("r", .num 8)],
    start := DRAW_START + 0.12, dur := 0.2, ease := "" }

def repairSrcRingReset : Instr :=
  { kind := .tset, target := "#node-" ++ GAP_SOURCE_ID ++ "-ring",
    attrs := [("r", .num 14), ("opacity", .num 0.3)],
    start := DRAW_START + 0.5, dur := 0, ease := "" }

/-- Step 3: the broken edge set up fully hidden, dasharray and dashoffset both
equal to the edge length. -/
def repairEdgeSetup : Instr :=
  { kind := .tset, target := "#edge-" ++ BROKEN_EDGE_ID,
    attrs := [("stroke", .str "#06b6d4"), ("stroke-width", .num 2.5),
              ("stroke-dasharray", .num BROKEN_EDGE_LENGTH),
              ("stroke-dashoffset", .num BROKEN_EDGE_LENGTH)],
    start := 0.25, dur := 0, ease := "" }

/-- Step 4: the particle parked at the source position, invisible. -/
def repairParticleSetup : Instr :=
  { kind := .tset, target := "#repair-particle",
    attrs := [("cx", .num (repairSrcNode.x : ℚ)), ("cy", .num (repairSrcNode.y : ℚ)),
              ("r", .num 5), ("opacity", .num 0)],
    start := DRAW_START - 0.05, dur := 0, ease := "" }

def repairParticleFadeIn : Instr :=
  { kind := .tween, target := "#repair-particle",
    attrs := [("opacity", .num 1)],
    start := DRAW_START, dur := 0.15, ease := "" }

/-- Step 5, first half of THE SYNC: the marker travels from the gap-source
position to the gap-target position. -/
def particleTravel : Instr :=
  { kind := .tween, target := "#repair-particle",
    attrs := [("cx", .num (repairTgtNode.x : ℚ)), ("cy", .num (repairTgtNode.y : ℚ))],
    start := DRAW_START, dur := REPAIR_DURATION, ease := REPAIR_EASE }

/-- Step 5, second half of THE SYNC: the broken edge reveals fully,
dashoffset animating from the edge length down to 0. -/
def edgeReveal : Instr :=
  { kind := .tween, target := "#edge-" ++ BROKEN_EDGE_ID,
    attrs := [("stroke-dashoffset", .num 0)],
    start := DRAW_START, dur := REPAIR_DURATION, ease := REPAIR_EASE }

/-- The particle fades just before arrival (`ARRIVAL_TIME - 0.2`). -/
def particleFade : Instr :=
  { kind := .tween, target := "#repair-particle",
    attrs := [("opacity", .num 0), ("r", .num 2)],
    start := ARRIVAL_TIME - 0.2, dur := 0.2, ease := "" }

/-- Step 6: connection burst on the target ring, at `ARRIVAL_TIME` exactly. -/
def targetRingBurst : Instr :=
  { kind := .tween, target := "#node-" ++ GAP_TARGET_ID ++ "-ring",
    attrs := [("r", .num 38), ("stroke", .str "#06b6d4"), ("opacity", .num 0)],
    start := ARRIVAL_TIME, dur := 0.55, ease := "power2.out" }

/-- Target dot bounce-in at `ARRIVAL_TIME + 0.02`. -/
def targetDotBounce : Instr :=
  { kind := .tween, target := "#node-" ++ GAP_TARGET_ID ++ "-dot",
    attrs := [("fill", .str "#06b6d4"), ("r", .num 13)],
    start := ARRIVAL_TIME + 0.02, dur := 0.35, ease := "back.out(2.5)" }

def targetDotSettle : Instr :=
  { kind := .tween, target := "#node-" ++ GAP_TARGET_ID ++ "-dot",
    attrs := [("r", .num 9)],
    start := ARRIVAL_TIME + 0.4, dur := 0.3, ease := "power2.inOut" }

/-- Ring reset (instantaneous) at `ARRIVAL_TIME + 0.05`. -/
def targetRingReset : Instr :=
  { kind := .tset, target := "#node-" ++ GAP_TARGET_ID ++ "-ring",
    attrs := [("r", .num 16), ("stroke", .str "#06b6d4"), ("opacity", .num 0)],
    start := ARRIVAL_TIME + 0.05, dur := 0, ease := "" }

def targetRingGlow : Instr :=
  { kind := .tween, target := "#node-" ++ GAP_TARGET_ID ++ "-ring",
    attrs := [("opacity", .num 0.45)],
    start := ARRIVAL_TIME + 0.2, dur := 0.45, ease := "" }

/-- The full instruction list built by `toRepair` (static-geometry variant of
`graphAnimations.ts`), in source declaration order. -/
def repairTimelineStatic : List Instr :=
  repairBgEdgeInstrs ++ repairBgNodeInstrs ++
  [repairSrcDotCyan, repairSrcRingCyan, repairLaunchBurst, repairSrcDotPop,
   repairSrcDotRelax, repairSrcRingReset, repairEdgeSetup, repairParticleSetup,
   repairParticleFadeIn, particleTravel, edgeReveal, particleFade,
   targetRingBurst, targetDotBounce, targetDotSettle, targetRingReset,
   targetRingGlow]

end Bloomed

namespace Bloomed

/-- Claim C1: in the repair choreography, the marker travel tween and the
broken-edge full-reveal tween are scheduled with the identical start offset,
the identical duration and the identical easing curve, hence the identical
completion instant (start + duration), and both belong to the repair
timeline. -/
theorem repair_sync_arrival :
    particleTravel.start = edgeReveal.start
      ∧ particleTravel.dur = edgeReveal.dur
      ∧ particleTravel.ease = edgeReveal.ease
      ∧ particleTravel.start + particleTravel.dur
          = edgeReveal.start + edgeReveal.dur
      ∧ particleTravel ∈ repairTimelineStatic
      ∧ edgeReveal ∈ repairTimelineStatic
      ∧ particleTravel.target = "#repair-particle"
      ∧ edgeReveal.target = "#edge-" ++ BROKEN_EDGE_ID := by
  refine ⟨rfl, rfl, rfl, rfl, ?_, ?_, rfl, rfl⟩
    <;> simp [repairTimelineStatic]

/-- Claim C5: the arrival time of the repair draw is derived exactly once as
`DRAW_START + REPAIR_DURATION = 0.35 + 1.5 = 1.85`, and every
arrival-triggered instruction is anchored at `ARRIVAL_TIME` plus a stated
small constant lag (ring burst at `+0`, dot bounce at `+0.02`, ring reset at
`+0.05`, ring glow restore at `+0.2`, dot settle at `+0.4`, particle fade at
`-0.2`), each lag of magnitude at most `0.4`. -/
theorem arrival_time_single_derivation :
    ARRIVAL_TIME = DRAW_START + REPAIR_DURATION
      ∧ DRAW_START = 0.35 ∧ REPAIR_DURATION = 1.5 ∧ ARRIVAL_TIME = 1.85
      ∧ targetRingBurst.start = ARRIVAL_TIME + 0
      ∧ targetDotBounce.start = ARRIVAL_TIME + 0.02
      ∧ targetRingReset.start = ARRIVAL_TIME + 0.05
      ∧ targetRingGlow.start = ARRIVAL_TIME + 0.2
      ∧ targetDotSettle.start = ARRIVAL_TIME + 0.4
      ∧ particleFade.start = ARRIVAL_TIME + (-0.2)
      ∧ |(0 : ℚ)| ≤ 0.4 ∧ |(0.02 : ℚ)| ≤ 0.4 ∧ |(0.05 : ℚ)| ≤ 0.4
      ∧ |(0.2 : ℚ)| ≤ 0.4 ∧ |(0.4 : ℚ)| ≤ 0.4 ∧ |(-0.2 : ℚ)| ≤ 0.4 := by
  refine ⟨rfl, rfl, rfl, ?_, by norm_num [targetRingBurst], rfl, rfl, rfl, rfl, ?_,
    ?_, ?_, ?_, ?_, ?_, ?_⟩
  · norm_num [ARRIVAL_TIME, DRAW_START, REPAIR_DURATION]
  · show ARRIVAL_TIME - 0.2 = ARRIVAL_TIME + (-0.2)
    ring
  all_goals rw [abs_le]; constructor <;> norm_num

/-! ## Live geometry reads — `getNodePos` / `getLiveEdgeLength`

The D3-integrated variants of `graphAnimations.ts` (`src/unnamed/part_000`
and `src/unnamed/part_001`) read the current DOM geometry before building the
repair and solidify timelines.  The DOM state visible to those reads is
modelled as an environment: `pos` is the parsed `translate(x, y)` transform of
a node group when the element exists and parses, and `edgeLen` is the rounded
`Math.hypot` length computed from the live `x1/y1/x2/y2` attributes of an
edge line when the element exists (the parse and the hypot computation are
performed on whatever the layout simulation last wrote, so they are modelled
as the environment directly providing the resulting values). -/

structure DomEnv where
  pos : String → Option (ℚ × ℚ)
  edgeLen : String → Option ℚ

/-- `getNodePos` from the D3-integrated variants: the live parsed transform
when available, otherwise the static `graphData` seed coordinate, otherwise
the origin. -/
def getNodePos (env : DomEnv) (nid : String) : ℚ × ℚ :=
  match env.pos nid with
  | some p => p
  | none =>
    match findNode nid with
    | some n => ((n.x : ℚ), (n.y : ℚ))
    | none => (0, 0)

/-- `getLiveEdgeLength` from the D3-integrated variants: the live rounded
length when the element exists and the length is positive, otherwise the
precomputed `BROKEN_EDGE_LENGTH`. -/
def getLiveEdgeLength (env : DomEnv) (edgeId : String) : ℚ :=
  match env.edgeLen edgeId with
  | some len => if 0 < len then len else BROKEN_EDGE_LENGTH
  | none => BROKEN_EDGE_LENGTH

/-- The reference geometry a repair build consumes: source position, target
position, edge length. -/
structure RepairGeometry where
  srcPos : ℚ × ℚ
  tgtPos : ℚ × ℚ
  edgeLen : ℚ
  deriving DecidableEq, Repr

/-- Reference-geometry computation of `toRepair` in the D3-integrated
variants (`part_000` lines 198 to 200): live reads with static fallback. -/
def repairGeometryLive (env : DomEnv) : RepairGeometry :=
  { srcPos := getNodePos env GAP_SOURCE_ID,
    tgtPos := getNodePos env GAP_TARGET_ID,
    edgeLen := getLiveEdgeLength env BROKEN_EDGE_ID }

/-- Reference-geometry computation of `toRepair` in the variant at
`src/src/animations/graphAnimations.ts` (lines 188, 189 and 229): the static
`GRAPH_NODES` seed coordinates and the precomputed `BROKEN_EDGE_LENGTH`,
regardless of the current DOM state. -/
def repairGeometryStatic : RepairGeometry :=
  { srcPos := ((repairSrcNode.x : ℚ), (repairSrcNode.y : ℚ)),
    tgtPos := ((repairTgtNode.x : ℚ), (repairTgtNode.y : ℚ)),
    edgeLen := BROKEN_EDGE_LENGTH }

/-- A DOM state in which the layout simulation has moved the gap source away
from its seed position. -/
def envMovedSource : DomEnv :=
  { pos := fun nid => if nid == GAP_SOURCE_ID then some (999, 999) else none,
    edgeLen := fun _ => none }

theorem repairSrcNode_eq : repairSrcNode = nPathology := by decide

theorem repairTgtNode_eq : repairTgtNode = nClinicalReasoning := by decide

/-- Claim C4, counterexample: the repair build of the variant at
`src/src/animations/graphAnimations.ts` uses the stale static seed
coordinates.  In a DOM state where the live gap-source position is
`(999, 999)`, that build still places the marker start at the static seed
`(380, 220)` — so the claim that the phase controller never reads the stale
static model is false for this variant of the choreography. -/
theorem repair_static_ignores_live_position :
    envMovedSource.pos GAP_SOURCE_ID = some (999, 999)
      ∧ repairGeometryStatic.srcPos = ((380 : ℚ), (220 : ℚ))
      ∧ repairGeometryStatic.srcPos ≠ (999, 999) := by
  refine ⟨rfl, ?_, ?_⟩
  · rw [repairGeometryStatic, repairSrcNode_eq]
    norm_num [nPathology]
  · rw [repairGeometryStatic, repairSrcNode_eq]
    simp only [nPathology, ne_eq, Prod.mk.injEq, not_and]
    intro h
    norm_num at h

/-- Claim C4, amended: the D3-integrated variants of the repair build
(`part_000`, `part_001`) do read the live node positions and the live edge
length whenever the DOM provides them, and fall back to the static seed data
only when a live value is unavailable. -/
theorem repair_live_reads_live_geometry :
    ∀ (env : DomEnv) (p q : ℚ × ℚ) (len : ℚ),
      env.pos GAP_SOURCE_ID = some p →
      env.pos GAP_TARGET_ID = some q →
      env.edgeLen BROKEN_EDGE_ID = some len →
      0 < len →
      repairGeometryLive env = ⟨p, q, len⟩ := by
  intro env p q len hp hq hl hpos
  unfold repairGeometryLive getNodePos getLiveEdgeLength
  rw [hp, hq, hl]
  simp [hpos]

/-- Witness for the amended claim C4: a concrete environment with all three
live values present. -/
theorem repair_live_reads_live_geometry_witness :
    repairGeometryLive
        { pos := fun nid =>
            if nid == GAP_SOURCE_ID then some (400, 230)
            else if nid == GAP_TARGET_ID then some (520, 190)
            else none,
          edgeLen := fun eid => if eid == BROKEN_EDGE_ID then some 127 else none }
      = ⟨(400, 230), (520, 190), 127⟩ := by
  exact repair_live_reads_live_geometry _ _ _ _ (by decide) (by decide) (by decide)
    (by norm_num)

end Bloomed

namespace Bloomed

/-! ## Solidify choreography — `toSolidify` in `graphAnimations.ts`

The wave ripple sorts the nodes by distance from the repaired-edge midpoint
`((380 + 540) / 2, (220 + 185) / 2)` and assigns the i-th node of the sorted
order the start delay `0.08 + i * 0.08`.

The source compares `Math.hypot(x - midX, y - midY)` values.  Multiplying by
2 and squaring is strictly monotone on nonnegatives, so comparing the integer
quantity `(2x - 920)^2 + (2y - 405)^2 = (2 * hypot)^2` yields exactly the
same order; the embedding uses that integer form. -/

def sqDist4 (n : GraphNode) : ℤ :=
  (2 * n.x - (380 + 540)) ^ 2 + (2 * n.y - (220 + 185)) ^ 2

/-- Stable insertion of a node into a list sorted by `sqDist4` ascending: the
new element goes before the first strictly-or-equally distant element it can
precede, i.e. ties keep the earlier-declared node first. -/
def insertByDist (x : GraphNode) : List GraphNode → List GraphNode
  | [] => [x]
  | y :: ys => if sqDist4 x ≤ sqDist4 y then x :: y :: ys else y :: insertByDist x ys

/-- Stable sort by distance ascending — the semantics of
`[...GRAPH_NODES].sort((a, b) => dA - dB)` (ES2019 `Array.prototype.sort` is
stable, so equal keys keep declaration order; insertion sort from the right
with ties-keep-left has the same output). -/
def sortByDist : List GraphNode → List GraphNode
  | [] => []
  | x :: xs => insertByDist x (sortByDist xs)

/-- `waveOrder` of `toSolidify`. -/
def waveOrder : List GraphNode := sortByDist GRAPH_NODES

/-- Start delay of the i-th wave entry: `const d = 0.08 + i * 0.08`. -/
def waveDelay (i : ℕ) : ℚ := 0.08 + (i : ℚ) * 0.08

/-- Position of a node id in the wave order. -/
def waveIdx (nid : String) : ℕ := (waveOrder.map (fun n => n.id)).indexOf nid

/-- The start delay assigned to a node id by the solidify ripple. -/
def delayOf (nid : String) : ℚ := waveDelay (waveIdx nid)

/-- The five tweens `toSolidify` registers for the i-th wave entry on node
`n`: group fade-in, dot bounce, dot settle, ring expand, ring settle. -/
def rippleInstrs (i : ℕ) (n : GraphNode) : List Instr :=
  [{ kind := .tween, target := "#node-" ++ n.id,
     attrs := [("opacity", .num 1)],
     start := waveDelay i, dur := 0.3, ease := "power2.out" },
   { kind := .tween, target := "#node-" ++ n.id ++ "-dot",
     attrs := [("fill", .str "#10b981"), ("r", .num 12)],
     start := waveDelay i, dur := 0.4, ease := "back.out(2.5)" },
   { kind := .tween, target := "#node-" ++ n.id ++ "-dot",
     attrs := [("r", .num 8)],
     start := waveDelay i + 0.45, dur := 0.5, ease := "power2.inOut" },
   { kind := .tween, target := "#node-" ++ n.id ++ "-ring",
     attrs := [("r", .num 26), ("stroke", .str "#10b981"), ("opacity", .num 0.65)],
     start := waveDelay i, dur := 0.35, ease := "power2.out" },
   { kind := .tween, target := "#node-" ++ n.id ++ "-ring",
     attrs := [("r", .num 13), ("opacity", .num 0.18)],
     start := waveDelay i + 0.38, dur := 0.6, ease := "power3.in" }]

/-- `const waveEnd = 0.08 + waveOrder.length * 0.08 + 0.55`. -/
def waveEnd : ℚ := 0.08 + (waveOrder.length : ℚ) * 0.08 + 0.55

/-- The `tl.call` at `waveEnd + 0.3` that spawns the ambient breathing loop
of the solidified state. -/
def breathingSpawn : Instr :=
  { kind := .call, target := "", attrs := [], start := waveEnd + 0.3, dur := 0, ease := "" }

/-- The full instruction list built by `toSolidify` (static variant):
initial resets, the broken edge turning solid green, background edges
restored, the wave ripple over the sorted order, the keep-green touch-ups at
`waveEnd`, and the breathing spawn call. -/
def solidifyTimelineStatic : List Instr :=
  [{ kind := .tset, target := "#repair-particle", attrs := [("opacity", .num 0)],
     start := 0, dur := 0, ease := "" },
   { kind := .tween, target := "#edge-" ++ BROKEN_EDGE_ID,
     attrs := [("stroke", .str "#10b981"), ("stroke-width", .num 3.5),
               ("stroke-dashoffset", .num 0)],
     start := 0, dur := 0.4, ease := "power2.out" },
   { kind := .tset, target := "#edge-" ++ BROKEN_EDGE_ID,
     attrs := [("stroke-dasharray", .num 9999)],
     start := 0.35, dur := 0, ease := "" }] ++
  ((GRAPH_EDGES.filter (fun e => e.id ≠ BROKEN_EDGE_ID)).map (fun e =>
    { kind := .tween, target := "#edge-" ++ e.id,
      attrs := [("stroke", .str "rgba(148, 163, 184, 0.32)"), ("stroke-width", .num 1.5)],
      start := 0, dur := 0.5, ease := "" })) ++
  (waveOrder.enum.flatMap (fun p => rippleInstrs p.1 p.2)) ++
  [{ kind := .tween, target := "#node-" ++ GAP_SOURCE_ID ++ "-dot",
     attrs := [("fill", .str "#10b981")], start := waveEnd, dur := 0.25, ease := "" },
   { kind := .tween, target := "#node-" ++ GAP_TARGET_ID ++ "-dot",
     attrs := [("fill", .str "#10b981")], start := waveEnd, dur := 0.25, ease := "" },
   { kind := .tween, target := "#node-" ++ GAP_SOURCE_ID ++ "-ring",
     attrs := [("stroke", .str "#10b981"), ("opacity", .num 0.22)],
     start := waveEnd, dur := 0.25, ease := "" },
   { kind := .tween, target := "#node-" ++ GAP_TARGET_ID ++ "-ring",
     attrs := [("stroke", .str "#10b981"), ("opacity", .num 0.22)],
     start := waveEnd, dur := 0.25, ease := "" },
   breathingSpawn]

/-- Completion instants (start + duration) of the five ripple tweens of the
i-th wave entry. -/
def rippleEndTimes (i : ℕ) : List ℚ :=
  (rippleInstrs i dummyNode).map (fun ins => ins.start + ins.dur)

/-- End of the latest-ending ripple tween of the i-th wave entry (the ring
settle, ending at `waveDelay i + 0.38 + 0.6`). -/
def rippleEnd (i : ℕ) : ℚ := waveDelay i + 0.38 + 0.6

theorem rippleEnd_isMax : ∀ i : ℕ, ∀ t ∈ rippleEndTimes i, t ≤ rippleEnd i := by
  intro i t ht
  simp only [rippleEndTimes, rippleInstrs, List.map_cons, List.map_nil,
    List.mem_cons, List.not_mem_nil, or_false] at ht
  rcases ht with h | h | h | h | h <;> rw [h, rippleEnd] <;> linarith

theorem waveOrder_length : waveOrder.length = 13 := by decide

end Bloomed

namespace Bloomed

/-- Claim C7, counterexample: the two repaired endpoints are exactly
equidistant from the repaired-edge midpoint (the midpoint of their own
segment), so `nClinicalReasoning` is at a smaller-or-equal distance than
`nPathology`; yet the stable sort keeps the earlier-declared `nPathology`
first, giving it delay `0.08` while `nClinicalReasoning` gets `0.16`.  Hence
the claimed implication (smaller-or-equal distance implies smaller-or-equal
delay) is false at this concrete pair. -/
theorem solidify_tie_breaks_wave_monotonicity :
    nClinicalReasoning ∈ GRAPH_NODES
      ∧ nPathology ∈ GRAPH_NODES
      ∧ sqDist4 nClinicalReasoning ≤ sqDist4 nPathology
      ∧ ¬ delayOf nClinicalReasoning.id ≤ delayOf nPathology.id := by
  refine ⟨by decide, by decide, by decide, ?_⟩
  have h1 : waveIdx nPathology.id = 0 := by decide
  have h2 : waveIdx nClinicalReasoning.id = 1 := by decide
  simp only [delayOf, h1, h2, waveDelay]
  norm_num

theorem waveDelay_mono : ∀ i j : ℕ, i ≤ j → waveDelay i ≤ waveDelay j := by
  intro i j h
  unfold waveDelay
  have hc : (i : ℚ) ≤ (j : ℚ) := by exact_mod_cast h
  nlinarith

/-- Claim C7, amended: restricted to strictly smaller distances the wave
ordering is monotone — for every pair of nodes, a strictly smaller distance
from the repaired-edge midpoint implies a smaller-or-equal (in fact smaller)
assigned start delay.  Only exact ties (the two repaired endpoints) are
ordered by declaration position instead. -/
theorem solidify_wave_delays_monotone :
    ∀ a ∈ GRAPH_NODES, ∀ b ∈ GRAPH_NODES,
      sqDist4 a < sqDist4 b → delayOf a.id ≤ delayOf b.id := by
  have key : ∀ a ∈ GRAPH_NODES, ∀ b ∈ GRAPH_NODES,
      sqDist4 a < sqDist4 b → waveIdx a.id ≤ waveIdx b.id := by decide
  intro a ha b hb h
  exact waveDelay_mono _ _ (key a ha b hb h)

/-- Witness for the amended claim C7 at a concrete pair: `nPathology` is
strictly closer to the midpoint than `nPharmacology` and receives a
smaller-or-equal delay. -/
theorem solidify_wave_delays_monotone_witness :
    sqDist4 nPathology < sqDist4 nPharmacology
      ∧ delayOf nPathology.id ≤ delayOf nPharmacology.id :=
  ⟨by decide,
   solidify_wave_delays_monotone nPathology (by decide) nPharmacology (by decide)
     (by decide)⟩

/-- Claim C9, counterexample: the breathing loop of the solidified phase is
spawned at `waveEnd + 0.3 = 1.97`, but the ring-settle tween of the last wave
entry (index 12) ends at `waveDelay 12 + 0.38 + 0.6 = 2.02`.  The spawn
offset is strictly smaller than that ripple end time, so the claim that the
spawn offset is greater than or equal to the end of every ripple animation is
false. -/
theorem breathing_spawn_precedes_last_ripple_end :
    breathingSpawn.start < rippleEnd 12
      ∧ 12 < waveOrder.length
      ∧ rippleEnd 12 ∈ rippleEndTimes 12
      ∧ breathingSpawn ∈ solidifyTimelineStatic := by
  refine ⟨?_, by rw [waveOrder_length]; norm_num, ?_, ?_⟩
  · show waveEnd + 0.3 < rippleEnd 12
    rw [waveEnd, waveOrder_length, rippleEnd, waveDelay]
    norm_num
  · simp only [rippleEndTimes, rippleInstrs, List.map_cons, List.map_nil, rippleEnd,
      List.mem_cons]
    right; right; right; right; left
    trivial
  · simp [solidifyTimelineStatic]

/-- Claim C9, amended: the breathing spawn offset is at least the completion
instant of every ripple tween of every wave entry minus `0.05` — the spawn
follows the whole wave except that it overlaps the final settle tweens of the
last entry by exactly `0.05` seconds. -/
theorem breathing_spawn_after_ripples_within_lag :
    ∀ i : ℕ, i < waveOrder.length →
      ∀ t ∈ rippleEndTimes i, t ≤ breathingSpawn.start + 0.05 := by
  intro i hi t ht
  have hmax := rippleEnd_isMax i t ht
  have h13 : waveOrder.length = 13 := waveOrder_length
  rw [h13] at hi
  have hc : (i : ℚ) ≤ 12 := by exact_mod_cast Nat.lt_succ_iff.mp hi
  have hend : rippleEnd i ≤ breathingSpawn.start + 0.05 := by
    show waveDelay i + 0.38 + 0.6 ≤ waveEnd + 0.3 + 0.05
    rw [waveDelay, waveEnd, h13]
    push_cast
    linarith
  linarith

/-- Witness for the amended claim C9 at the first wave entry and its fade-in
tween end. -/
theorem breathing_spawn_after_ripples_within_lag_witness :
    waveDelay 0 + 0.3 ≤ breathingSpawn.start + 0.05 :=
  breathing_spawn_after_ripples_within_lag 0 (by rw [waveOrder_length]; norm_num)
    (waveDelay 0 + 0.3) (by simp [rippleEndTimes, rippleInstrs])

end Bloomed

namespace Bloomed

/-! ## Phase controller — `KnowledgeGraph.tsx` with `graphAnimations.ts`

The scroll-phase effect in `KnowledgeGraph.tsx` is

    if (phase === prevPhaseRef.current) return;
    timelineRef.current?.kill();
    prevPhaseRef.current = phase;
    switch (phase) { ... timelineRef.current = toX(); ... }

and every timeline builder `toX` in `graphAnimations.ts` begins with
`killAll()`, which kills and clears every module-level slot holding a spawned
repeating tween; afterwards the builder may spawn its own repeating tweens
into those slots (via `tl.call`).  The controller state is the recorded
previous phase, the identity of the running timeline handle, and the contents
of the repeating-tween slots, each tagged with the phase whose builder spawned
it.  A transition is modelled atomically: a repeating tween only ever enters a
slot after `killAll` has cleared all of them, and a timeline killed before a
pending `tl.call` fires never spawns its loop at all, so in every
interleaving the slots after a transition hold only loops of the new phase. -/

structure CtrlState (Phase Slot : Type) where
  current : Phase
  handle : ℕ
  loops : Slot → Option Phase

inductive CtrlAction (Phase : Type) where
  | killTimeline (h : ℕ)
  | startTimeline (p : Phase)
  deriving DecidableEq

/-- What a phase builder leaves in the repeating-tween slots: `killAll`
clears everything, then the builder spawns its own loops, tagged with the
spawning phase. -/
def buildLoops {Phase Slot : Type} (spawns : Phase → Slot → Bool) (p : Phase) :
    Slot → Option Phase :=
  fun s => if spawns p s then some p else none

/-- The scroll-phase effect of `KnowledgeGraph.tsx`: re-entering the current
phase returns immediately (no kill, no rebuild, state unchanged); entering a
different phase kills the running handle, records the new phase, and builds
the new timeline, whose builder first runs `killAll`. -/
def enterPhase {Phase Slot : Type} [DecidableEq Phase]
    (spawns : Phase → Slot → Bool) (p : Phase) (st : CtrlState Phase Slot) :
    CtrlState Phase Slot × List (CtrlAction Phase) :=
  if p = st.current then (st, [])
  else
    ({ current := p, handle := st.handle + 1, loops := buildLoops spawns p },
     [.killTimeline st.handle, .startTimeline p])

/-- Phases of the learning narrative variant (`graphTypes` in part_002, the
set consumed by `KnowledgeGraph.tsx`). -/
inductive GraphPhase where
  | ambient
  | diagnostic
  | learning
  | solidify
  deriving DecidableEq, Repr

/-- Repeating-tween slots of the learning-variant animation module
(part_001): `_breathing`, `_scanPulse`, `_learningGlow` — exactly the slots
its `killAll` clears. -/
inductive LearnSlot where
  | breathing
  | scanPulse
  | learningGlow
  deriving DecidableEq, Repr

/-- Which repeating tweens each learning-variant builder spawns: `toAmbient`
the breathing loop, `toDiagnostic` the scanning pulse, `toLearning` the
learning glow, `toSolidify` the breathing loop. -/
def learnSpawns : GraphPhase → LearnSlot → Bool
  | .ambient, .breathing => true
  | .diagnostic, .scanPulse => true
  | .learning, .learningGlow => true
  | .solidify, .breathing => true
  | _, _ => false

/-- Phases of the gap-repair narrative variant (`graphTypes` in part_003). -/
inductive RepairPhase where
  | ambient
  | diagnostic
  | repair
  | solidify
  deriving DecidableEq, Repr

/-- Repeating-tween slots of the repair-variant animation module
(`graphAnimations.ts`): `_breathing`, `_pulse`, `_march` — exactly the slots
its `killAll` clears. -/
inductive RepairSlot where
  | breathing
  | pulse
  | march
  deriving DecidableEq, Repr

/-- `toAmbient` spawns the breathing loop, `toDiagnostic` the marching ants
and the gap pulse, `toRepair` nothing, `toSolidify` the breathing loop. -/
def repairSpawns : RepairPhase → RepairSlot → Bool
  | .ambient, .breathing => true
  | .diagnostic, .pulse => true
  | .diagnostic, .march => true
  | .solidify, .breathing => true
  | _, _ => false

theorem enterPhase_clean {Phase Slot : Type} [DecidableEq Phase]
    (spawns : Phase → Slot → Bool) (st : CtrlState Phase Slot) (b : Phase)
    (hne : b ≠ st.current) :
    (enterPhase spawns b st).2 = [.killTimeline st.handle, .startTimeline b]
      ∧ ∀ s q, (enterPhase spawns b st).1.loops s = some q → q = b := by
  unfold enterPhase
  rw [if_neg hne]
  refine ⟨rfl, ?_⟩
  intro s q hq
  simp only [buildLoops] at hq
  split at hq
  · exact (Option.some.inj hq).symm
  · exact absurd hq (by simp)

/-- Claim C2: for every transition into a phase different from the current
one, in both narrative variants, the controller emits exactly a kill of the
previous running handle followed by the start of the new timeline, and
afterwards every occupied repeating-tween slot is tagged with the new phase —
in particular no repeating loop spawned under the previous phase (breathing,
pulse, marching dashes, scanning pulse, learning glow) remains active. -/
theorem transition_kills_previous_loops :
    (∀ (st : CtrlState RepairPhase RepairSlot) (b : RepairPhase),
      b ≠ st.current →
        (enterPhase repairSpawns b st).2
            = [.killTimeline st.handle, .startTimeline b]
          ∧ ∀ s q, (enterPhase repairSpawns b st).1.loops s = some q →
              q ≠ st.current)
      ∧ (∀ (st : CtrlState GraphPhase LearnSlot) (b : GraphPhase),
      b ≠ st.current →
        (enterPhase learnSpawns b st).2
            = [.killTimeline st.handle, .startTimeline b]
          ∧ ∀ s q, (enterPhase learnSpawns b st).1.loops s = some q →
              q ≠ st.current) := by
  constructor <;>
  · intro st b hne
    obtain ⟨hact, hloop⟩ := enterPhase_clean _ st b hne
    refine ⟨hact, ?_⟩
    intro s q hq
    rw [hloop s q hq]
    exact hne

/-- Witness for claim C2: a concrete diagnostic-to-repair transition with the
diagnostic pulse and marching loops occupying every slot beforehand. -/
theorem transition_kills_previous_loops_witness :
    (enterPhase repairSpawns RepairPhase.repair
        ⟨RepairPhase.diagnostic, 5, fun _ => some RepairPhase.diagnostic⟩).2
        = [.killTimeline 5, .startTimeline RepairPhase.repair]
      ∧ ∀ s q, (enterPhase repairSpawns RepairPhase.repair
          ⟨RepairPhase.diagnostic, 5, fun _ => some RepairPhase.diagnostic⟩).1.loops s
            = some q → q ≠ RepairPhase.diagnostic :=
  transition_kills_previous_loops.1
    ⟨RepairPhase.diagnostic, 5, fun _ => some RepairPhase.diagnostic⟩
    RepairPhase.repair (by decide)

/-- Claim C3: entering the phase that is already current is a no-op — the
guard `phase === prevPhaseRef.current` makes the controller return without
killing anything and without building a timeline, leaving the state
(including the running handle and the spawned loops) unchanged and emitting
no actions. -/
theorem reenter_phase_idempotent :
    ∀ (st : CtrlState GraphPhase LearnSlot) (p : GraphPhase),
      st.current = p → enterPhase learnSpawns p st = (st, []) := by
  intro st p h
  unfold enterPhase
  rw [if_pos h.symm]

/-- Witness for claim C3: re-entering the solidify phase with its breathing
loop running changes nothing and emits no actions. -/
theorem reenter_phase_idempotent_witness :
    enterPhase learnSpawns GraphPhase.solidify
        ⟨GraphPhase.solidify, 3, buildLoops learnSpawns GraphPhase.solidify⟩
      = (⟨GraphPhase.solidify, 3, buildLoops learnSpawns GraphPhase.solidify⟩, []) :=
  reenter_phase_idempotent
    ⟨GraphPhase.solidify, 3, buildLoops learnSpawns GraphPhase.solidify⟩
    GraphPhase.solidify rfl

end Bloomed

namespace Bloomed

/-! ## Procedural bloom generator — `HeroBloom.tsx`

The hero decoration builds, once, a 7-petal radial graph from fixed templates
plus jitter from a seeded sine-based pseudo-random function, then derives a
noisy distance-based reveal order, per-node reveal delays, and deterministic
breathing subsets.

The generator is embedded as a pure function of

* the seed function `s` (the sine-hash `srand` of the source),
* `cosT`/`sinT`, cosine and sine taken on fractions of a full turn (the
  source computes `Math.cos(a)` for angles `a` that are rational multiples of
  `2 * pi`; the embedding passes the rational multiple itself, so `cosT t`
  stands for `cos (2 * pi * t)`),
* `sqrtQ` (for `Math.hypot` distances from the layout center) and `powC`
  (for the reveal curve `pos ** 1.8`), and
* the petal geometry template.

All remaining inputs (colors, petal count, pair templates) are fixed
constants, as in the source. -/

structure BNode where
  id : String
  tx : ℚ
  ty : ℚ
  color : String
  dotR : ℚ
  ringR : ℚ
  deriving DecidableEq, Repr

structure BEdge where
  id : String
  src : String
  tgt : String
  deriving DecidableEq, Repr

def bloomCX : ℚ := 500

def bloomCY : ℚ := 500

def NUM_PETALS : ℕ := 7

/-- `PETAL_COLORS` resolved from the `COLORS` palette (indices
0, 1, 2, 3, 0, 2, 1). -/
def PETAL_COLORS : List String :=
  ["#6366f1", "#8b5cf6", "#3b82f6", "#06b6d4", "#6366f1", "#3b82f6", "#8b5cf6"]

structure PetalTmpl where
  role : String
  dist : ℚ
  perp : ℚ
  dotR : ℚ
  ringR : ℚ
  deriving DecidableEq, Repr

/-- The 12-entry petal template of `HeroBloom.tsx`, in declaration order. -/
def PETAL_TMPL : List PetalTmpl :=
  [⟨"base", 150, 0, 4.5, 9⟩,
   ⟨"innerL", 210, -50, 4, 8⟩,
   ⟨"innerR", 210, 50, 4, 8⟩,
   ⟨"midL", 290, -75, 4.5, 9⟩,
   ⟨"midR", 290, 75, 4.5, 9⟩,
   ⟨"midC", 320, 0, 4.5, 9⟩,
   ⟨"outerL", 400, -80, 4, 8⟩,
   ⟨"outerR", 400, 80, 4, 8⟩,
   ⟨"accent", 355, 28, 3.5, 7⟩,
   ⟨"farL", 440, -50, 3.5, 7⟩,
   ⟨"farR", 440, 50, 3.5, 7⟩,
   ⟨"tip", 480, 0, 4.5, 9⟩]

def INNER_PAIRS : List (String × String) :=
  [("base", "innerL"), ("base", "innerR"), ("base", "midC"),
   ("innerL", "midL"), ("innerR", "midR"), ("innerL", "innerR"),
   ("midL", "midC"), ("midR", "midC")]

def OUTER_PAIRS : List (String × String) :=
  [("midL", "outerL"), ("midR", "outerR"), ("midC", "tip"),
   ("outerL", "farL"), ("outerR", "farR"), ("farL", "tip"),
   ("farR", "tip"), ("accent", "midC"), ("accent", "outerR")]

/-- `jitter(seed, range) = (srand(seed) - 0.5) * 2 * range`. -/
def jitter (s : ℤ → ℚ) (seed : ℤ) (range : ℚ) : ℚ :=
  (s seed - 0.5) * 2 * range

/-- The two center stamen nodes, at angles 0.15 and 0.65 of a turn, radius
25, colors `COLORS[0]` and `COLORS[2]`. -/
def bloomCenterNodes (cosT sinT : ℚ → ℚ) : List BNode :=
  [⟨"hb-c0", bloomCX + cosT 0.15 * 25, bloomCY + sinT 0.15 * 25, "#6366f1", 4, 8⟩,
   ⟨"hb-c1", bloomCX + cosT 0.65 * 25, bloomCY + sinT 0.65 * 25, "#3b82f6", 4, 8⟩]

/-- The nodes of petal `p`: one per template entry, jittered in distance,
perpendicular offset and position by seeds derived from
`(petal index) * 100 + (template index)`.  The petal angle is
`(2 pi p) / NUM_PETALS - pi / 2`, i.e. `p / 7 - 1 / 4` turns, and the
perpendicular angle adds a quarter turn, giving `p / 7` turns. -/
def bloomPetalNodes (s : ℤ → ℚ) (cosT sinT : ℚ → ℚ) (tmpl : List PetalTmpl)
    (p : ℕ) : List BNode :=
  tmpl.enum.map (fun pr =>
    let idx := pr.1
    let t := pr.2
    let seed : ℤ := (p : ℤ) * 100 + (idx : ℤ)
    let dJ := jitter s seed 20
    let pJ := jitter s (seed + 50) 15
    let xJ := jitter s (seed + 99) 12
    let yJ := jitter s (seed + 77) 12
    let dist := t.dist + dJ
    let perp := t.perp + pJ
    let pa : ℚ := (p : ℚ) / (NUM_PETALS : ℚ) - 1 / 4
    let pp : ℚ := (p : ℚ) / (NUM_PETALS : ℚ)
    { id := "hb-p" ++ toString p ++ "-" ++ t.role,
      tx := bloomCX + cosT pa * dist + cosT pp * perp + xJ,
      ty := bloomCY + sinT pa * dist + sinT pp * perp + yJ,
      color := PETAL_COLORS.getD p "",
      dotR := t.dotR, ringR := t.ringR })

/-- `allNodes`: the center cluster followed by the petals in order. -/
def bloomNodes (s : ℤ → ℚ) (cosT sinT : ℚ → ℚ) (tmpl : List PetalTmpl) :
    List BNode :=
  bloomCenterNodes cosT sinT
    ++ (List.range NUM_PETALS).flatMap (bloomPetalNodes s cosT sinT tmpl)

/-- Source and target id pairs of the edges of petal `p`: the center
connection (from `hb-c0` for even petals, `hb-c1` for odd ones) followed by
the inner and outer pair templates. -/
def petalEdgePairs (p : ℕ) : List (String × String) :=
  ((if p % 2 = 0 then "hb-c0" else "hb-c1"), "hb-p" ++ toString p ++ "-base")
    :: (INNER_PAIRS ++ OUTER_PAIRS).map (fun pr =>
      ("hb-p" ++ toString p ++ "-" ++ pr.1, "hb-p" ++ toString p ++ "-" ++ pr.2))

/-- `allEdges`: ids `hb-e0`, `hb-e1`, ... assigned by the running counter in
construction order — the center edge first, then the petals. -/
def bloomEdges : List BEdge :=
  (("hb-c0", "hb-c1") :: (List.range NUM_PETALS).flatMap petalEdgePairs).enum.map
    (fun pr => ⟨"hb-e" ++ toString pr.1, pr.2.1, pr.2.2⟩)

/-- `nodeDist`: distance of a node from the layout center. -/
def nodeDistB (sqrtQ : ℚ → ℚ) (n : BNode) : ℚ :=
  sqrtQ ((n.tx - bloomCX) * (n.tx - bloomCX) + (n.ty - bloomCY) * (n.ty - bloomCY))

/-- One entry of `sortedEntries`: the node, its noisy sort key, and its index
in `allNodes`. -/
structure SortEntry where
  node : BNode
  sortDist : ℚ
  idx : ℕ
  deriving DecidableEq, Repr

def mkSortEntries (s : ℤ → ℚ) (sqrtQ : ℚ → ℚ) (nodes : List BNode) :
    List SortEntry :=
  nodes.enum.map (fun pr =>
    ⟨pr.2, nodeDistB sqrtQ pr.2 + jitter s ((pr.1 : ℤ) * 7 + 13) 55, pr.1⟩)

/-- Stable insertion into a list sorted by `sortDist` ascending (ties keep
the earlier element first, matching the stable JS sort). -/
def insertEntry (e : SortEntry) : List SortEntry → List SortEntry
  | [] => [e]
  | f :: fs => if e.sortDist ≤ f.sortDist then e :: f :: fs else f :: insertEntry e fs

def sortEntriesStable : List SortEntry → List SortEntry
  | [] => []
  | e :: es => insertEntry e (sortEntriesStable es)

def NODE_START : ℚ := 0.15

def NODE_SPREAD : ℚ := 2.7

/-- Per-node reveal delays: sort position mapped through the nonlinear curve
`powC` (the source uses `pos ** 1.8`), scaled into the spread, plus a small
indexed time noise, floored at `0.05`. -/
def bloomDelays (s : ℤ → ℚ) (powC : ℚ → ℚ) (sorted : List SortEntry) :
    List (String × ℚ) :=
  sorted.enum.map (fun pr =>
    let sortIdx := pr.1
    let e := pr.2
    let pos : ℚ := (sortIdx : ℚ) / max ((sorted.length : ℚ) - 1) 1
    let curved := powC pos
    let timeNoise := jitter s ((e.idx : ℤ) * 3 + 7) 0.07
    (e.node.id, max 0.05 (NODE_START + curved * NODE_SPREAD + timeNoise)))

/-- `breathNodeIds`: the index-seeded boolean subset `srand(i * 47 + 23) < 0.4`. -/
def breathNodeIds (s : ℤ → ℚ) (nodes : List BNode) : List String :=
  (nodes.enum.filter (fun pr => decide (s ((pr.1 : ℤ) * 47 + 23) < 0.4))).map
    (fun pr => pr.2.id)

/-- `breathEdgeIds`: the index-seeded boolean subset `srand(i * 59 + 31) < 0.25`. -/
def breathEdgeIds (s : ℤ → ℚ) (edges : List BEdge) : List String :=
  (edges.enum.filter (fun pr => decide (s ((pr.1 : ℤ) * 59 + 31) < 0.25))).map
    (fun pr => pr.2.id)

/-- Everything the generator produces that the reveal animation consumes. -/
structure BloomOutput where
  nodes : List BNode
  edges : List BEdge
  revealOrder : List String
  delays : List (String × ℚ)
  breathNodes : List String
  breathEdges : List String
  deriving DecidableEq, Repr

/-- The whole generator: nodes and edges from the templates, the noisy
distance-sorted reveal order, the per-node delays, and the breathing
subsets. -/
def bloomGenerate (s : ℤ → ℚ) (cosT sinT sqrtQ powC : ℚ → ℚ)
    (tmpl : List PetalTmpl) : BloomOutput :=
  let nodes := bloomNodes s cosT sinT tmpl
  let sorted := sortEntriesStable (mkSortEntries s sqrtQ nodes)
  { nodes := nodes,
    edges := bloomEdges,
    revealOrder := sorted.map (fun e => e.node.id),
    delays := bloomDelays s powC sorted,
    breathNodes := breathNodeIds s nodes,
    breathEdges := breathEdgeIds s bloomEdges }

/-- Claim C6: the procedural bloom generator is deterministic — two runs with
the same petal template and extensionally equal seed and transcendental
helper functions produce identical node coordinate lists, identical reveal
order and per-node delays, and identical breathing node and edge subsets.
There is no other input: the generator is a pure function of these
arguments. -/
theorem bloom_generator_deterministic :
    ∀ (s1 s2 : ℤ → ℚ) (c1 c2 t1 t2 q1 q2 w1 w2 : ℚ → ℚ)
      (tm1 tm2 : List PetalTmpl),
      (∀ z, s1 z = s2 z) → (∀ x, c1 x = c2 x) → (∀ x, t1 x = t2 x) →
      (∀ x, q1 x = q2 x) → (∀ x, w1 x = w2 x) → tm1 = tm2 →
      bloomGenerate s1 c1 t1 q1 w1 tm1 = bloomGenerate s2 c2 t2 q2 w2 tm2 := by
  intro s1 s2 c1 c2 t1 t2 q1 q2 w1 w2 tm1 tm2 hs hc ht hq hw htm
  rw [funext hs, funext hc, funext ht, funext hq, funext hw, htm]

/-- Witness for claim C6 at concrete computable inputs. -/
theorem bloom_generator_deterministic_witness :
    bloomGenerate (fun z => (z : ℚ) / 2) (fun x => x) (fun x => 1 - x)
        (fun x => x) (fun x => x * x) PETAL_TMPL
      = bloomGenerate (fun z => (z : ℚ) / 2) (fun x => x) (fun x => 1 - x)
        (fun x => x) (fun x => x * x) PETAL_TMPL :=
  bloom_generator_deterministic _ _ _ _ _ _ _ _ _ _ _ _
    (fun _ => rfl) (fun _ => rfl) (fun _ => rfl) (fun _ => rfl) (fun _ => rfl) rfl

end Bloomed
